import Mathlib

/-!
Verification development for the sandboxed code-execution core of the
Codetest-AI backend (`backend/app/services/sandbox.py` and
`backend/app/routers/execution.py`).

The Python functions perform IO (temp files, subprocesses, a container
runtime).  We embed them shallowly: every IO interaction point is an input
supplied by an *environment* value (which branch the subprocess run took,
what the container returned, which temp path was allocated, ...), and each
function additionally returns the list of filesystem events (file creations
and deletions) it performed, so that cleanup claims are statable.  Control
flow, error strings and arithmetic are transliterated from the source.
Durations and memory figures are modelled as exact rationals.
-/

namespace CodetestAI

/-! ## Python string helpers

`str.strip()` with no arguments removes leading and trailing whitespace;
for the ASCII range that is space, tab, newline, carriage return, vertical
tab and form feed. -/

def isPySpace (c : Char) : Bool :=
  c == ' ' || c == '\t' || c == '\n' || c == '\r' || c == '\x0b' || c == '\x0c'

def pyStripList (cs : List Char) : List Char :=
  ((cs.dropWhile isPySpace).reverse.dropWhile isPySpace).reverse

/-- Model of Python `s.strip()`. -/
def pyStrip (s : String) : String := String.mk (pyStripList s.data)

/-- Model of `os.path.dirname`: everything before the final `/`. -/
def pyDirname (s : String) : String :=
  String.mk (((s.data.reverse.dropWhile (· ≠ '/')).drop 1).reverse)

/-! ## JSON values, as produced by Python's `json.loads`

The comparator of `execute_testcase` parses both outputs with `json.loads`
and compares the resulting Python values with `==`.  We model JSON values
with integer numbers (the fraction/exponent forms, which Python turns into
floats, are out of this model's scope and simply fail to parse here) and
model `dict` (insertion-ordered, key-unique, order-insensitive equality) by
keeping object fields sorted by key with later duplicate keys winning, so
that Python's `dict` equality becomes structural equality of the canonical
form. -/

inductive Json where
  | null
  | bool (b : Bool)
  | num (n : Int)
  | str (s : String)
  | arr (elems : List Json)
  | obj (fields : List (String × Json))
  deriving Repr

/-- Strict lexicographic order on char lists, used only to canonicalise
object fields. -/
def charsLt : List Char → List Char → Bool
  | [], [] => false
  | [], _ :: _ => true
  | _ :: _, [] => false
  | c :: cs, d :: ds => c < d || (c == d && charsLt cs ds)

/-- Insert a parsed field into the canonical (key-sorted) field list.  The
field being inserted occurs *earlier* in the source text than every field
already in the list, so on a duplicate key the existing (later) value wins,
matching Python's `dict` construction where later keys overwrite. -/
def insertField (k : String) (v : Json) : List (String × Json) → List (String × Json)
  | [] => [(k, v)]
  | (k', v') :: rest =>
    if k = k' then (k', v') :: rest
    else if charsLt k.data k'.data then (k, v) :: (k', v') :: rest
    else (k', v') :: insertField k v rest

mutual

/-- Python `==` on the canonicalised JSON values: with objects key-sorted and
key-unique, `dict` equality is structural equality, so all cases are
structural. -/
def jsonEq : Json → Json → Bool
  | .null, .null => true
  | .bool a, .bool b => a == b
  | .num a, .num b => a == b
  | .str a, .str b => a == b
  | .arr xs, .arr ys => jsonEqList xs ys
  | .obj xs, .obj ys => jsonEqFields xs ys
  | _, _ => false

def jsonEqList : List Json → List Json → Bool
  | [], [] => true
  | x :: xs, y :: ys => jsonEq x y && jsonEqList xs ys
  | _, _ => false

def jsonEqFields : List (String × Json) → List (String × Json) → Bool
  | [], [] => true
  | (k, v) :: xs, (k', v') :: ys => k == k' && jsonEq v v' && jsonEqFields xs ys
  | _, _ => false

end

def isJsonWs (c : Char) : Bool :=
  c == ' ' || c == '\t' || c == '\n' || c == '\r'

def skipWs (cs : List Char) : List Char := cs.dropWhile isJsonWs

def hexVal (c : Char) : Option Nat :=
  if '0' ≤ c && c ≤ '9' then some (c.toNat - 48)
  else if 'a' ≤ c && c ≤ 'f' then some (c.toNat - 87)
  else if 'A' ≤ c && c ≤ 'F' then some (c.toNat - 55)
  else none

/-- Body of a JSON string literal, after the opening quote. -/
def parseJStringAux (acc : List Char) : List Char → Option (String × List Char)
  | [] => none
  | '"' :: rest => some (String.mk acc.reverse, rest)
  | '\\' :: '"' :: rest => parseJStringAux ('"' :: acc) rest
  | '\\' :: '\\' :: rest => parseJStringAux ('\\' :: acc) rest
  | '\\' :: '/' :: rest => parseJStringAux ('/' :: acc) rest
  | '\\' :: 'b' :: rest => parseJStringAux ('\x08' :: acc) rest
  | '\\' :: 'f' :: rest => parseJStringAux ('\x0c' :: acc) rest
  | '\\' :: 'n' :: rest => parseJStringAux ('\n' :: acc) rest
  | '\\' :: 'r' :: rest => parseJStringAux ('\r' :: acc) rest
  | '\\' :: 't' :: rest => parseJStringAux ('\t' :: acc) rest
  | '\\' :: 'u' :: a :: b :: c :: d :: rest =>
    match hexVal a, hexVal b, hexVal c, hexVal d with
    | some ha, some hb, some hc, some hd =>
      parseJStringAux (Char.ofNat (((ha * 16 + hb) * 16 + hc) * 16 + hd) :: acc) rest
    | _, _, _, _ => none
  | '\\' :: _ => none
  | c :: rest => if c.toNat ≥ 32 then parseJStringAux (c :: acc) rest else none

def digitsVal (ds : List Char) : Nat :=
  ds.foldl (fun a c => a * 10 + (c.toNat - 48)) 0

/-- An unsigned JSON integer: one or more digits, no leading zero unless the
number is exactly `0`. -/
def parseJNat (cs : List Char) : Option (Nat × List Char) :=
  let ds := cs.takeWhile Char.isDigit
  let rest := cs.drop ds.length
  if ds.isEmpty then none
  else if ds.length > 1 && ds.headD '0' == '0' then none
  else some (digitsVal ds, rest)

def parseJNum : List Char → Option (Json × List Char)
  | '-' :: cs => (parseJNat cs).map (fun p => (Json.num (-(p.1 : Int)), p.2))
  | cs => (parseJNat cs).map (fun p => (Json.num (p.1 : Int), p.2))

mutual

def parseVal : Nat → List Char → Option (Json × List Char)
  | 0, _ => none
  | fuel + 1, cs =>
    match skipWs cs with
    | 'n' :: 'u' :: 'l' :: 'l' :: rest => some (.null, rest)
    | 't' :: 'r' :: 'u' :: 'e' :: rest => some (.bool true, rest)
    | 'f' :: 'a' :: 'l' :: 's' :: 'e' :: rest => some (.bool false, rest)
    | '"' :: rest => (parseJStringAux [] rest).map (fun p => (.str p.1, p.2))
    | '[' :: rest =>
      (match skipWs rest with
       | ']' :: r => some (.arr [], r)
       | cs' => (parseArrItems fuel cs').map (fun p => (.arr p.1, p.2)))
    | '{' :: rest =>
      (match skipWs rest with
       | '}' :: r => some (.obj [], r)
       | cs' => (parseObjItems fuel cs').map (fun p => (.obj p.1, p.2)))
    | cs' => parseJNum cs'

def parseArrItems : Nat → List Char → Option (List Json × List Char)
  | 0, _ => none
  | fuel + 1, cs =>
    match parseVal fuel cs with
    | none => none
    | some (v, rest) =>
      match skipWs rest with
      | ',' :: r =>
        (match parseArrItems fuel r with
         | some (xs, r') => some (v :: xs, r')
         | none => none)
      | ']' :: r => some ([v], r)
      | _ => none

def parseObjItems : Nat → List Char → Option (List (String × Json) × List Char)
  | 0, _ => none
  | fuel + 1, cs =>
    match skipWs cs with
    | '"' :: rest =>
      (match parseJStringAux [] rest with
       | none => none
       | some (k, r1) =>
         match skipWs r1 with
         | ':' :: r2 =>
           (match parseVal fuel r2 with
            | none => none
            | some (v, r3) =>
              match skipWs r3 with
              | ',' :: r4 =>
                (match parseObjItems fuel r4 with
                 | some (fs, r5) => some (insertField k v fs, r5)
                 | none => none)
              | '}' :: r4 => some ([(k, v)], r4)
              | _ => none)
         | _ => none)
    | _ => none

end

/-- Model of Python `json.loads` on the JSON fragment described above: parse
one value and require only whitespace to remain. -/
def json_loads (s : String) : Option Json :=
  match parseVal (2 * s.length + 4) s.data with
  | some (v, rest) => if skipWs rest = [] then some v else none
  | none => none

/-! ## Exact rational arithmetic

Durations and memory figures are Python numbers; we model them as exact
rationals.  The standard `ℚ` arithmetic operations are `@[irreducible]`, so
the model uses the following kernel-evaluable equivalents, all built on
`mkRat` (each produces the same normalised rational as the corresponding
field operation). -/

def natQ (n : Nat) : ℚ := mkRat (Int.ofNat n) 1

def intQ (n : Int) : ℚ := mkRat n 1

/-- `a * b` on `ℚ`. -/
def qMul (a b : ℚ) : ℚ := mkRat (a.num * b.num) (a.den * b.den)

/-- `a + b` on `ℚ`. -/
def qAdd (a b : ℚ) : ℚ := mkRat (a.num * (b.den : Int) + b.num * (a.den : Int)) (a.den * b.den)

/-- `a - b` on `ℚ`. -/
def qSub (a b : ℚ) : ℚ := mkRat (a.num * (b.den : Int) - b.num * (a.den : Int)) (a.den * b.den)

/-- `a / n` for a natural `n` (the model only divides by list lengths,
guarded to be nonzero). -/
def qDivNat (a : ℚ) (n : Nat) : ℚ := mkRat a.num (a.den * n)

/-- `a < b` on `ℚ`. -/
def qLt (a b : ℚ) : Bool := Rat.blt a b

/-- Python `sum`. -/
def qSum (l : List ℚ) : ℚ := l.foldl qAdd 0

/-- Python `max(a, b)`. -/
def qMax (a b : ℚ) : ℚ := if qLt a b then b else a

/-- `math.floor` of a rational (the denominator is positive). -/
def qFloor (q : ℚ) : Int := Int.fdiv q.num q.den

/-! ## Data model (`sandbox.py` / `schemas/execution.py`) -/

/-- `ExecutionResult` dataclass of `sandbox.py`. -/
structure ExecutionResult where
  output : String
  execution_time_ms : ℚ
  memory_used_mb : ℚ
  error : Option String := none
  timed_out : Bool := false
  deriving Repr, DecidableEq

/-- One entry of the `LANGUAGE_CONFIG` dictionary. -/
structure LanguageConfig where
  extension : String
  compile_cmd : Option String
  runCommand : String  -- source field name is the run command template
  image : String
  deriving Repr, DecidableEq

/-- `PYTHON_CMD`: we model the non-Windows branch of the platform switch. -/
def PYTHON_CMD : String := "python3"

/-- The `LANGUAGE_CONFIG` registry: only `"python"` is present. -/
def LANGUAGE_CONFIG (language : String) : Option LanguageConfig :=
  if language = "python" then
    some { extension := ".py", compile_cmd := none,
           runCommand := PYTHON_CMD ++ " \x7bfile\x7d", image := "python:3.11-slim" }
  else none

/-- `TestcaseInput` schema. -/
structure TestcaseInput where
  input : String
  expected_output : String
  deriving Repr, DecidableEq

/-- `TestcaseResult` schema. -/
structure TestcaseResult where
  testcase_index : Nat
  passed : Bool
  actual_output : String
  expected_output : String
  execution_time_ms : ℚ
  memory_used_mb : ℚ
  error : Option String := none
  deriving Repr, DecidableEq

/-- `ExecutionRequest` schema (default field values as in the schema). -/
structure ExecutionRequest where
  code : String
  language : String
  testcases : List TestcaseInput
  timeout_seconds : Nat := 10
  memory_limit_mb : Nat := 256
  deriving Repr, DecidableEq

/-- The two `Settings` fields the execution router reads. -/
structure Settings where
  code_timeout_seconds : Nat := 10
  code_memory_limit_mb : Nat := 256
  deriving Repr, DecidableEq

/-- `ExecutionSummary` schema. -/
structure ExecutionSummary where
  passed : Nat
  failed : Nat
  total : Nat
  avg_execution_time_ms : ℚ
  max_memory_mb : ℚ
  deriving Repr, DecidableEq

/-- `ExecutionResponse` schema. -/
structure ExecutionResponse where
  results : List TestcaseResult
  summary : ExecutionSummary
  runtime_error : Option String := none
  deriving Repr, DecidableEq

/-! ## Effect bookkeeping

A Python function either returns a value or raises; we track which, plus the
list of filesystem events it performed, so that cleanup is statable. -/

/-- Return or raise: the result of running a Python function body. -/
inductive PyOutcome (α : Type) where
  | ret (a : α)
  | exc (msg : String)
  deriving Repr, DecidableEq

/-- A filesystem side effect performed by the code under verification. -/
inductive FsEvent where
  | create (path : String)
  | unlink (path : String)
  deriving Repr, DecidableEq

def applyFsEvent (fs : List String) : FsEvent → List String
  | .create p => fs ++ [p]
  | .unlink p => fs.filter (· ≠ p)

/-- The files still on disk after a list of events, starting from no files
owned by this call. -/
def remainingFiles (evs : List FsEvent) : List String :=
  evs.foldl applyFsEvent []

/-- The `finally`-block pattern `if path and os.path.exists(path):
os.unlink(path)`: appends the unlink event exactly when the variable is
bound and the file currently exists. -/
def finallyUnlink (fp : Option String) (evs : List FsEvent) : List FsEvent :=
  match fp with
  | none => evs
  | some p => if p ∈ remainingFiles evs then evs ++ [.unlink p] else evs

/-! ## Environment oracles

Each point where the Python code touches the outside world (temp-file
allocation, subprocess run, container run) is decided by an environment
value; the model is a pure function of the request and the environment. -/

/-- How `create_solution_file`'s IO goes: the fresh temp path on success, or
which step raised. -/
inductive CreateFileBehavior where
  | ok (path : String)
  | mkstempRaised (msg : String)
  | writeRaised (path : String) (msg : String)
  deriving Repr, DecidableEq

/-- How one `subprocess.run` call goes.  `timeoutExpired` carries `str(e)`
of the `TimeoutExpired` exception (used only where that string is observable). -/
inductive SubprocessBehavior where
  | completed (stdout stderr : String) (returncode : Int) (duration_ms : ℚ)
  | timeoutExpired (msg : String)
  | raised (msg : String)
  deriving Repr, DecidableEq

/-- Environment for one `run_code_locally` call. -/
structure LocalEnv where
  createFile : CreateFileBehavior
  compileRun : SubprocessBehavior
  run : SubprocessBehavior
  deriving Repr, DecidableEq

/-- How writing `input.txt` goes on the containerized path: `open` may fail
before the file exists, or the write may fail after creation. -/
inductive InputWriteBehavior where
  | ok
  | openRaised (msg : String)
  | writeRaised (msg : String)
  deriving Repr, DecidableEq

/-- How the `client.containers.run` call goes. -/
inductive ContainerBehavior where
  | output (stdout : String) (duration_ms : ℚ)
  | containerError (stderrTxt : Option String) (excStr : String)
  | raised (msg : String)
  deriving Repr, DecidableEq

structure DockerAvailEnv where
  createFile : CreateFileBehavior
  inputWrite : InputWriteBehavior
  container : ContainerBehavior
  deriving Repr, DecidableEq

/-- Environment for one `run_code_docker` call: either the availability
probe (`docker.from_env` / `client.ping`) raised — `excMsg` is that
exception's text, discarded by the code — or the runtime is reachable. -/
inductive DockerEnv where
  | unavailable (excMsg : String) (localEnv : LocalEnv)
  | available (env : DockerAvailEnv)
  deriving Repr, DecidableEq

/-! ## `sandbox.py` operations -/

/-- `create_solution_file`: registry lookup (raising `ValueError` on an
unknown language), then `mkstemp` + write with the inner `except` that
unlinks the fresh file and re-raises.  The Java `class Solution` wrapping
only changes the bytes written to the file, which nothing downstream of
this model observes (and `"java"` is not in the registry, so the branch is
unreachable from the executors). -/
def create_solution_file (env : CreateFileBehavior) (code language : String) :
    PyOutcome String × List FsEvent :=
  match LANGUAGE_CONFIG language with
  | none => (.exc ("Unsupported language: " ++ language), [])
  | some _ =>
    match env with
    | .ok p => (.ret p, [.create p])
    | .mkstempRaised m => (.exc m, [])
    | .writeRaised p m => (.exc m, [.create p, .unlink p])

/-- The error `ExecutionResult` built for an unknown language. -/
def unsupportedResult (language : String) : ExecutionResult :=
  { output := "", execution_time_ms := 0, memory_used_mb := 0,
    error := some ("Unsupported language: " ++ language) }

/-- The `ExecutionResult` built by `except Exception as e` handlers:
`error=str(e)`, zero time and memory. -/
def exceptionResult (m : String) : ExecutionResult :=
  { output := "", execution_time_ms := 0, memory_used_mb := 0, error := some m }

/-- The `ExecutionResult` built on a non-zero compiler exit. -/
def compileErrorResult (cstderr : String) : ExecutionResult :=
  { output := "", execution_time_ms := 0, memory_used_mb := 0,
    error := some ("Compilation error: " ++ cstderr) }

/-- The run phase of `run_code_locally` (lines 107-142): the inner
`try`/`except TimeoutExpired` around `subprocess.run`, with any other
exception handled by the enclosing `except Exception`. -/
def localRunPhase (run : SubprocessBehavior) (timeout_seconds : Nat) :
    ExecutionResult :=
  match run with
  | .completed stdout stderr rc dur =>
    if rc ≠ 0 then
      { output := pyStrip stdout, execution_time_ms := dur, memory_used_mb := 0,
        error := some (if stderr == "" then "Runtime error" else pyStrip stderr) }
    else
      { output := pyStrip stdout, execution_time_ms := dur, memory_used_mb := 0 }
  | .timeoutExpired _ =>
    -- `execution_time_ms = timeout_seconds * 1000` (exact integer arithmetic)
    { output := "", execution_time_ms := natQ (timeout_seconds * 1000),
      memory_used_mb := 0, error := some "Time limit exceeded", timed_out := true }
  | .raised m => exceptionResult m

/-- `run_code_locally`.  Registry lookup, materialisation, optional compile
step (dead for the only registered language, whose `compile_cmd` is none),
run phase, `except Exception` handler, and the `finally` unlink of the
solution file. -/
def run_code_locally (env : LocalEnv) (code language input_data : String)
    (timeout_seconds : Nat := 10) (memory_limit_mb : Nat := 256) :
    PyOutcome ExecutionResult × List FsEvent :=
  match LANGUAGE_CONFIG language with
  | none => (.ret (unsupportedResult language), [])
  | some config =>
    match create_solution_file env.createFile code language with
    | (.exc m, evs) =>
      -- the exception left `file_path` unassigned, so `finally` unlinks nothing
      (.ret (exceptionResult m), finallyUnlink none evs)
    | (.ret file_path, evs) =>
      match config.compile_cmd with
      | some _ =>
        (match env.compileRun with
         | .completed _ cstderr crc _ =>
           if crc ≠ 0 then
             (.ret (compileErrorResult cstderr), finallyUnlink (some file_path) evs)
           else
             (.ret (localRunPhase env.run timeout_seconds),
              finallyUnlink (some file_path) evs)
         | .timeoutExpired m =>
           (.ret (exceptionResult m), finallyUnlink (some file_path) evs)
         | .raised m =>
           (.ret (exceptionResult m), finallyUnlink (some file_path) evs))
      | none =>
        (.ret (localRunPhase env.run timeout_seconds),
         finallyUnlink (some file_path) evs)

/-- `run_code_docker`.  If the availability probe raised, the whole request
is re-issued to `run_code_locally` with the same arguments.  Otherwise:
registry lookup, materialisation of the solution file and of `input.txt`
next to it, the container run (note: no timeout is applied on this path),
the `ContainerError` / `Exception` handlers, and the `finally` unlinks of
both files. -/
def run_code_docker (env : DockerEnv) (code language input_data : String)
    (timeout_seconds : Nat := 10) (memory_limit_mb : Nat := 256) :
    PyOutcome ExecutionResult × List FsEvent :=
  match env with
  | .unavailable _ localEnv =>
    run_code_locally localEnv code language input_data timeout_seconds memory_limit_mb
  | .available denv =>
    match LANGUAGE_CONFIG language with
    | none => (.ret (unsupportedResult language), [])
    | some _config =>
      match create_solution_file denv.createFile code language with
      | (.exc m, evs) =>
        (.ret (exceptionResult m), finallyUnlink none (finallyUnlink none evs))
      | (.ret file_path, evs) =>
        let input_file_path := pyDirname file_path ++ "/input.txt"
        match denv.inputWrite with
        | .openRaised m =>
          (.ret (exceptionResult m),
           finallyUnlink (some input_file_path) (finallyUnlink (some file_path) evs))
        | .writeRaised m =>
          (.ret (exceptionResult m),
           finallyUnlink (some input_file_path)
             (finallyUnlink (some file_path) (evs ++ [.create input_file_path])))
        | .ok =>
          let evs := evs ++ [.create input_file_path]
          match denv.container with
          | .output s dur =>
            -- `memory_used_mb = memory_limit_mb * 0.5` (exactly mem/2)
            (.ret { output := pyStrip s, execution_time_ms := dur,
                    memory_used_mb := mkRat (Int.ofNat memory_limit_mb) 2 },
             finallyUnlink (some input_file_path) (finallyUnlink (some file_path) evs))
          | .containerError stderrTxt excStr =>
            (.ret (exceptionResult ("Runtime error: " ++ stderrTxt.getD excStr)),
             finallyUnlink (some input_file_path) (finallyUnlink (some file_path) evs))
          | .raised m =>
            (.ret (exceptionResult m),
             finallyUnlink (some input_file_path) (finallyUnlink (some file_path) evs))

/-- Which executor `execute_testcase` uses (`use_docker` selects the
constructor) together with that executor's environment. -/
inductive ExecEnv where
  | docker (env : DockerEnv)
  | loc (env : LocalEnv)
  deriving Repr, DecidableEq

/-- The output comparison of `execute_testcase`: `json.loads` both stripped
strings and compare the values if both parse, otherwise exact equality of
the stripped strings. -/
def compareOutputs (actual expected : String) : Bool :=
  match json_loads actual, json_loads expected with
  | some a, some b => jsonEq a b
  | _, _ => actual == expected

/-- `executor = run_code_docker if use_docker else run_code_locally`,
applied to the arguments (line 281-282 of `sandbox.py`). -/
def runExecutor (env : ExecEnv) (code language input_data : String)
    (timeout_seconds : Nat) (memory_limit_mb : Nat) :
    PyOutcome ExecutionResult × List FsEvent :=
  match env with
  | .docker denv =>
    run_code_docker denv code language input_data timeout_seconds memory_limit_mb
  | .loc lenv =>
    run_code_locally lenv code language input_data timeout_seconds memory_limit_mb

/-- `execute_testcase`: runs the selected executor on the testcase's input
and builds the `TestcaseResult` with the stripped outputs and the
comparison verdict. -/
def execute_testcase (env : ExecEnv) (code language : String)
    (testcase : TestcaseInput) (testcase_index : Nat)
    (timeout_seconds : Nat := 10) (memory_limit_mb : Nat := 256) :
    PyOutcome TestcaseResult × List FsEvent :=
  let (po, evs) :=
    runExecutor env code language testcase.input timeout_seconds memory_limit_mb
  match po with
  | .exc m => (.exc m, evs)
  | .ret result =>
    let actual := pyStrip result.output
    let expected := pyStrip testcase.expected_output
    (.ret { testcase_index := testcase_index,
            passed := compareOutputs actual expected,
            actual_output := actual, expected_output := expected,
            execution_time_ms := result.execution_time_ms,
            memory_used_mb := result.memory_used_mb,
            error := result.error }, evs)

/-! ## `routers/execution.py` -/

/-- Python truthiness of the optional error string: `None` and `""` are
falsy. -/
def errTruthy : Option String → Bool
  | some s => !(s == "")
  | none => false

/-- Round a rational to the nearest integer, halves to even — Python's
`round` on exact values (binary-float representation effects are outside
this model). -/
def roundHalfEven (q : ℚ) : Int :=
  let f := qFloor q
  let frac := qSub q (intQ f)
  if qLt frac (mkRat 1 2) then f
  else if qLt (mkRat 1 2) frac then f + 1
  else if f % 2 = 0 then f else f + 1

/-- Python `round(x, 2)` on exact rationals. -/
def round2 (q : ℚ) : ℚ := mkRat (roundHalfEven (qMul q (intQ 100))) 100

/-- Python `max(xs, default=d)`. -/
def pyMaxD (d : ℚ) : List ℚ → ℚ
  | [] => d
  | x :: xs => xs.foldl qMax x

/-- The `for i, testcase in enumerate(request.testcases)` loop of the
router: one `execute_testcase` call per testcase (each with its own docker
environment `envs i`), appending results in order and updating the
first-error accumulator exactly as `if result.error and not runtime_error`. -/
def runTestcases (envs : Nat → DockerEnv) (code language : String)
    (timeout memory : Nat) :
    List TestcaseInput → Nat → Option String →
    PyOutcome (List TestcaseResult × Option String) × List FsEvent
  | [], _, runtime_error => (.ret ([], runtime_error), [])
  | tc :: rest, i, runtime_error =>
    match execute_testcase (.docker (envs i)) code language tc i timeout memory with
    | (.exc m, evs) => (.exc m, evs)
    | (.ret r, evs) =>
      let runtime_error' :=
        if errTruthy r.error && !(errTruthy runtime_error) then r.error
        else runtime_error
      match runTestcases envs code language timeout memory rest (i + 1) runtime_error' with
      | (.exc m, evs') => (.exc m, evs ++ evs')
      | (.ret (rs, re), evs') => (.ret (r :: rs, re), evs ++ evs')

/-- The `/execute` endpoint `execute_code`: caps the limits with the
settings, runs every testcase in order with `use_docker=True`, and builds
the summary (`round(·, 2)` applied to the mean duration and the maximum
memory). -/
def execute_code (envs : Nat → DockerEnv) (request : ExecutionRequest)
    (settings : Settings) : PyOutcome ExecutionResponse × List FsEvent :=
  let timeout := min request.timeout_seconds settings.code_timeout_seconds
  let memory := min request.memory_limit_mb settings.code_memory_limit_mb
  match runTestcases envs request.code request.language timeout memory
      request.testcases 0 none with
  | (.exc m, evs) => (.exc m, evs)
  | (.ret (results, runtime_error), evs) =>
    let passed := results.countP (fun r => r.passed)
    let failed := results.length - passed
    let avg_time :=
      if results.length ≠ 0 then
        qDivNat (qSum (results.map (fun r => r.execution_time_ms))) results.length
      else 0
    let max_memory := pyMaxD 0 (results.map (fun r => r.memory_used_mb))
    (.ret { results := results,
            summary := { passed := passed, failed := failed,
                         total := results.length,
                         avg_execution_time_ms := round2 avg_time,
                         max_memory_mb := round2 max_memory },
            runtime_error := runtime_error }, evs)

/-! ## Concrete instances used by witnesses and counterexamples -/

def PyOutcome.getD {α : Type} : PyOutcome α → α → α
  | .ret a, _ => a
  | .exc _, d => d

/-- A local environment whose materialisation succeeds at a fixed temp path
and whose run phase behaves as given (the compile step is unreachable for
the registered language, whose `compile_cmd` is `none`). -/
def leRun (b : SubprocessBehavior) : LocalEnv :=
  { createFile := .ok "/tmp/sol.py", compileRun := .raised "unreachable", run := b }

/-- Containerized environment for the C1 failing input: runtime reachable,
container completes normally after 5000 ms. -/
def denvSlow : DockerEnv :=
  .available { createFile := .ok "/tmp/sol.py", inputWrite := .ok,
               container := .output "42" 5000 }

def tcJson : TestcaseInput := { input := "", expected_output := "\x7b\"b\": 2, \"a\": 1\x7d" }

def leJson : LocalEnv := leRun (.completed "\x7b\"a\": 1, \"b\": 2\x7d" "" 0 7)

def trJson : TestcaseResult :=
  { testcase_index := 0, passed := true,
    actual_output := "\x7b\"a\": 1, \"b\": 2\x7d", expected_output := "\x7b\"b\": 2, \"a\": 1\x7d",
    execution_time_ms := 7, memory_used_mb := 0, error := none }

/-- Request with a language id absent from the registry. -/
def reqCpp : ExecutionRequest :=
  { code := "int main()", language := "cpp",
    testcases := [{ input := "", expected_output := "1" },
                  { input := "", expected_output := "2" }] }

def envsNoDocker : Nat → DockerEnv :=
  fun _ => .unavailable "docker off" (leRun (.completed "" "" 0 1))

def respCpp : ExecutionResponse :=
  { results := [{ testcase_index := 0, passed := false, actual_output := "",
                  expected_output := "1", execution_time_ms := 0,
                  memory_used_mb := 0, error := some "Unsupported language: cpp" },
                { testcase_index := 1, passed := false, actual_output := "",
                  expected_output := "2", execution_time_ms := 0,
                  memory_used_mb := 0, error := some "Unsupported language: cpp" }],
    summary := { passed := 0, failed := 2, total := 2,
                 avg_execution_time_ms := 0, max_memory_mb := 0 },
    runtime_error := some "Unsupported language: cpp" }

/-- C7 environments: the first run exits non-zero with whitespace-only
stderr (so its error field is the empty string), the second with stderr
`"boom"`. -/
def envsC7 : Nat → DockerEnv := fun i =>
  if i = 0 then .unavailable "docker off" (leRun (.completed "" " " 1 5))
  else .unavailable "docker off" (leRun (.completed "" "boom" 1 6))

def reqC7 : ExecutionRequest :=
  { code := "print(x)", language := "python",
    testcases := [{ input := "", expected_output := "1" },
                  { input := "", expected_output := "2" }] }

def respC7 : ExecutionResponse :=
  { results := [{ testcase_index := 0, passed := false, actual_output := "",
                  expected_output := "1", execution_time_ms := 5,
                  memory_used_mb := 0, error := some "" },
                { testcase_index := 1, passed := false, actual_output := "",
                  expected_output := "2", execution_time_ms := 6,
                  memory_used_mb := 0, error := some "boom" }],
    summary := { passed := 0, failed := 2, total := 2,
                 avg_execution_time_ms := mkRat 11 2, max_memory_mb := 0 },
    runtime_error := some "boom" }

/-- C8 environments: three successful runs with durations 1, 1 and 2 ms, so
the exact mean 4/3 is not representable in two decimal places. -/
def envsC8 : Nat → DockerEnv := fun i =>
  .unavailable "docker off" (leRun (.completed "ok" "" 0 (if i = 2 then 2 else 1)))

def reqC8 : ExecutionRequest :=
  { code := "print(1)", language := "python",
    testcases := [{ input := "", expected_output := "ok" },
                  { input := "", expected_output := "ok" },
                  { input := "", expected_output := "ok" }] }

def respC8 : ExecutionResponse :=
  { results := [{ testcase_index := 0, passed := true, actual_output := "ok",
                  expected_output := "ok", execution_time_ms := 1,
                  memory_used_mb := 0, error := none },
                { testcase_index := 1, passed := true, actual_output := "ok",
                  expected_output := "ok", execution_time_ms := 1,
                  memory_used_mb := 0, error := none },
                { testcase_index := 2, passed := true, actual_output := "ok",
                  expected_output := "ok", execution_time_ms := 2,
                  memory_used_mb := 0, error := none }],
    summary := { passed := 3, failed := 0, total := 3,
                 avg_execution_time_ms := mkRat 133 100, max_memory_mb := 0 },
    runtime_error := none }

/-- One-testcase request for the batch-alignment witness. -/
def reqOne : ExecutionRequest :=
  { code := "print(7)", language := "python",
    testcases := [{ input := "", expected_output := "7" }] }

def envsOne : Nat → DockerEnv :=
  fun _ => .unavailable "docker off" (leRun (.completed "7" "" 0 3))

def respOne : ExecutionResponse :=
  { results := [{ testcase_index := 0, passed := true, actual_output := "7",
                  expected_output := "7", execution_time_ms := 3,
                  memory_used_mb := 0, error := none }],
    summary := { passed := 1, failed := 0, total := 1,
                 avg_execution_time_ms := 3, max_memory_mb := 0 },
    runtime_error := none }

/-- Timed-out run, for the C10 witness. -/
def leTimeout : LocalEnv := leRun (.timeoutExpired "Command timed out")

def erTimeout : ExecutionResult :=
  { output := "", execution_time_ms := 1000, memory_used_mb := 0,
    error := some "Time limit exceeded", timed_out := true }

def tcBlankExpected : TestcaseInput := { input := "", expected_output := " " }

def trTimeout : TestcaseResult :=
  { testcase_index := 0, passed := true, actual_output := "",
    expected_output := "", execution_time_ms := 1000, memory_used_mb := 0,
    error := some "Time limit exceeded" }

/-! ## Helper lemmas -/

/-- Every branch of `run_code_locally` returns a result (the body is wrapped
in `except Exception`, which converts any raise into an error outcome). -/
theorem run_code_locally_isRet (env : LocalEnv) (c l i : String) (t m : Nat) :
    ∃ r, (run_code_locally env c l i t m).1 = .ret r := by
  unfold run_code_locally
  repeat' split
  all_goals exact ⟨_, rfl⟩

/-- Every branch of `run_code_docker` returns a result: the availability
probe falls back to the local executor, and the containerized body is
wrapped in `except docker.errors.ContainerError` / `except Exception`. -/
theorem run_code_docker_isRet (env : DockerEnv) (c l i : String) (t m : Nat) :
    ∃ r, (run_code_docker env c l i t m).1 = .ret r := by
  unfold run_code_docker
  repeat' split
  all_goals first
    | exact ⟨_, rfl⟩
    | exact run_code_locally_isRet _ c l i t m

/-- `execute_testcase` returns a result whenever its executor does, and the
result's fields are the transliterated ones. -/
theorem execute_testcase_ret (eenv : ExecEnv) (c l : String) (tc : TestcaseInput)
    (idx t m : Nat) (er : ExecutionResult)
    (h : (runExecutor eenv c l tc.input t m).1 = .ret er) :
    (execute_testcase eenv c l tc idx t m).1 =
      .ret { testcase_index := idx,
             passed := compareOutputs (pyStrip er.output) (pyStrip tc.expected_output),
             actual_output := pyStrip er.output,
             expected_output := pyStrip tc.expected_output,
             execution_time_ms := er.execution_time_ms,
             memory_used_mb := er.memory_used_mb,
             error := er.error } := by
  unfold execute_testcase
  rcases hx : runExecutor eenv c l tc.input t m with ⟨po, evs⟩
  rw [hx] at h
  simp only at h
  subst h
  rfl

/-- `execute_testcase` never raises. -/
theorem execute_testcase_isRet (eenv : ExecEnv) (c l : String) (tc : TestcaseInput)
    (idx t m : Nat) :
    ∃ tr, (execute_testcase eenv c l tc idx t m).1 = .ret tr := by
  have h : ∃ er, (runExecutor eenv c l tc.input t m).1 = .ret er := by
    rcases eenv with denv | lenv
    · exact run_code_docker_isRet denv c l tc.input t m
    · exact run_code_locally_isRet lenv c l tc.input t m
  rcases h with ⟨er, her⟩
  exact ⟨_, execute_testcase_ret eenv c l tc idx t m er her⟩

/-- `runExecutor` never raises (both executors convert every in-scope
failure into an error outcome). -/
theorem runExecutor_isRet (eenv : ExecEnv) (c l i : String) (t m : Nat) :
    ∃ er, (runExecutor eenv c l i t m).1 = .ret er := by
  rcases eenv with denv | lenv
  · exact run_code_docker_isRet denv c l i t m
  · exact run_code_locally_isRet lenv c l i t m

/-! ## Claim theorems -/

/-- C1: the claim requires every testcase whose run exceeds the configured
timeout to yield `timed_out = true`, duration `timeout_seconds * 1000` and a
TimeLimitExceeded error.  The containerized path never enforces the timeout:
`timeout_seconds` is unused there, the container call simply blocks.  At the
failing input — runtime reachable, configured timeout 1 s, container
completing only after 5000 ms — the outcome is a normal result with
`timed_out = false`, the actual 5000 ms duration, and no error. -/
theorem docker_path_ignores_timeout :
    (run_code_docker denvSlow "while True: pass" "python" "" 1 256).1 =
      .ret { output := "42", execution_time_ms := 5000, memory_used_mb := 128,
             error := none, timed_out := false } := by decide

/-- C2: the pass/fail verdict recorded by `execute_testcase` is the
two-tier comparison of the whitespace-trimmed outputs — structural JSON
equality when both parse, exact string equality otherwise — and on that
policy `{"a": 1, "b": 2}` vs `{"b": 2, "a": 1}` compare equal while
`Hello` vs `hello` compare unequal. -/
theorem comparator_two_tier_policy (eenv : ExecEnv) (c l : String)
    (tc : TestcaseInput) (idx t m : Nat) (tr : TestcaseResult)
    (h : (execute_testcase eenv c l tc idx t m).1 = .ret tr) :
    tr.expected_output = pyStrip tc.expected_output ∧
    (tr.passed = match json_loads tr.actual_output, json_loads tr.expected_output with
      | some a, some b => jsonEq a b
      | _, _ => tr.actual_output == tr.expected_output) ∧
    compareOutputs (pyStrip "\x7b\"a\": 1, \"b\": 2\x7d") (pyStrip "\x7b\"b\": 2, \"a\": 1\x7d") = true ∧
    compareOutputs (pyStrip "Hello") (pyStrip "hello") = false := by
  obtain ⟨er, her⟩ := runExecutor_isRet eenv c l tc.input t m
  have hret := execute_testcase_ret eenv c l tc idx t m er her
  rw [hret] at h
  injection h with h
  subst h
  exact ⟨rfl, rfl, by decide, by decide⟩

theorem comparator_two_tier_policy_witness :
    ((execute_testcase (.loc leJson) "print" "python" tcJson 0 10 256).1 =
      .ret trJson) ∧
    (trJson.expected_output = pyStrip tcJson.expected_output ∧
     (trJson.passed = match json_loads trJson.actual_output, json_loads trJson.expected_output with
       | some a, some b => jsonEq a b
       | _, _ => trJson.actual_output == trJson.expected_output) ∧
     compareOutputs (pyStrip "\x7b\"a\": 1, \"b\": 2\x7d") (pyStrip "\x7b\"b\": 2, \"a\": 1\x7d") = true ∧
     compareOutputs (pyStrip "Hello") (pyStrip "hello") = false) :=
  ⟨by decide,
   comparator_two_tier_policy (.loc leJson) "print" "python" tcJson 0 10 256 trJson
     (by decide)⟩

/-- C3: when the availability probe raises, `run_code_docker` returns the
outcome of `run_code_locally` on the *same* arguments, with the *same*
filesystem trace (the failed containerized attempt created nothing), and
the returned value is independent of the probe's exception text (so that
text never reaches any `TestcaseResult`); the substitution also commutes
with `execute_testcase`. -/
theorem docker_unavailable_falls_back_locally (excMsg : String) (lenv : LocalEnv)
    (c l i : String) (tc : TestcaseInput) (idx t m : Nat) :
    run_code_docker (.unavailable excMsg lenv) c l i t m =
      run_code_locally lenv c l i t m ∧
    execute_testcase (.docker (.unavailable excMsg lenv)) c l tc idx t m =
      execute_testcase (.loc lenv) c l tc idx t m :=
  ⟨rfl, rfl⟩

/-- C5: for every environment — covering compile failure, non-zero exit,
timeout, unsupported language and an arbitrary internal exception — both
isolation executors return an `ExecutionResult` rather than raising past
their boundary. -/
theorem executors_never_raise (lenv : LocalEnv) (denv : DockerEnv)
    (c l i : String) (t m : Nat) :
    (∃ r, (run_code_locally lenv c l i t m).1 = .ret r) ∧
    (∃ r, (run_code_docker denv c l i t m).1 = .ret r) :=
  ⟨run_code_locally_isRet lenv c l i t m, run_code_docker_isRet denv c l i t m⟩

/-- C10: the `passed` flag only looks at the compared outputs: whenever the
expected output trims to the empty string and the run produced empty stdout
(as a timed-out or failed run does), the testcase is reported as passed
even though it carries the run's (non-null) error. -/
theorem empty_expected_passes_despite_error (eenv : ExecEnv) (c l : String)
    (tc : TestcaseInput) (idx t m : Nat) (er : ExecutionResult)
    (tr : TestcaseResult)
    (h1 : (runExecutor eenv c l tc.input t m).1 = .ret er)
    (h2 : er.output = "")
    (h3 : pyStrip tc.expected_output = "")
    (h4 : (execute_testcase eenv c l tc idx t m).1 = .ret tr) :
    tr.passed = true ∧ tr.error = er.error := by
  have hret := execute_testcase_ret eenv c l tc idx t m er h1
  rw [hret] at h4
  injection h4 with h4
  subst h4
  refine ⟨?_, rfl⟩
  show compareOutputs (pyStrip er.output) (pyStrip tc.expected_output) = true
  rw [h2, h3]
  decide

theorem empty_expected_passes_despite_error_witness :
    ((runExecutor (.loc leTimeout) "loop" "python" tcBlankExpected.input 1 256).1 =
      .ret erTimeout) ∧
    (erTimeout.output = "") ∧
    (pyStrip tcBlankExpected.expected_output = "") ∧
    ((execute_testcase (.loc leTimeout) "loop" "python" tcBlankExpected 0 1 256).1 =
      .ret trTimeout) ∧
    (trTimeout.passed = true ∧ trTimeout.error = erTimeout.error) :=
  ⟨by decide, by decide, by decide, by decide,
   empty_expected_passes_despite_error (.loc leTimeout) "loop" "python"
     tcBlankExpected 0 1 256 erTimeout trTimeout
     (by decide) (by decide) (by decide) (by decide)⟩

/-! ## Filesystem-cleanup lemmas -/

theorem remainingFiles_append (evs evs' : List FsEvent) :
    remainingFiles (evs ++ evs') = evs'.foldl applyFsEvent (remainingFiles evs) := by
  simp [remainingFiles, List.foldl_append]

theorem remaining_finallyUnlink (fp : Option String) (evs : List FsEvent) :
    remainingFiles (finallyUnlink fp evs) =
      match fp with
      | none => remainingFiles evs
      | some p => (remainingFiles evs).filter (· ≠ p) := by
  cases fp with
  | none => rfl
  | some p =>
    simp only [finallyUnlink]
    split
    · rw [remainingFiles_append]
      simp [applyFsEvent]
    · rename_i hmem
      refine (List.filter_eq_self.mpr ?_).symm
      intro q hq
      simp only [decide_eq_true_eq]
      intro he
      exact hmem (he ▸ hq)

theorem finallyUnlink_none (evs : List FsEvent) : finallyUnlink none evs = evs := rfl

theorem remaining_nil : remainingFiles ([] : List FsEvent) = [] := rfl

theorem remaining_create_unlink (p : String) :
    remainingFiles [.create p, .unlink p] = [] := by
  simp [remainingFiles, applyFsEvent]

/-- The trace of the successful local branch is clean. -/
theorem clean_one (p : String) :
    remainingFiles (finallyUnlink (some p) [.create p]) = [] := by
  rw [remaining_finallyUnlink]
  simp [remainingFiles, applyFsEvent]

/-- The trace of the containerized branch that created only the solution
file is clean. -/
theorem clean_one_two (p q : String) :
    remainingFiles (finallyUnlink (some q) (finallyUnlink (some p) [.create p])) = [] := by
  rw [remaining_finallyUnlink, remaining_finallyUnlink]
  simp [remainingFiles, applyFsEvent]

/-- The trace of the containerized branches that created the solution file
and the input file is clean (including the degenerate case where the two
paths coincide). -/
theorem clean_two (p q : String) :
    remainingFiles (finallyUnlink (some q)
      (finallyUnlink (some p) [.create p, .create q])) = [] := by
  rw [remaining_finallyUnlink, remaining_finallyUnlink]
  by_cases h : q = p <;> simp [remainingFiles, applyFsEvent, h]

/-- `run_code_locally` leaves nothing behind on any branch. -/
theorem run_code_locally_clean (env : LocalEnv) (c l i : String) (t m : Nat) :
    remainingFiles (run_code_locally env c l i t m).2 = [] := by
  rcases env with ⟨cf, cr, run⟩
  unfold run_code_locally create_solution_file LANGUAGE_CONFIG
  by_cases hl : l = "python" <;>
    cases cf <;>
    simp_all [finallyUnlink_none, remaining_nil, remaining_create_unlink, clean_one]

/-- `run_code_docker` leaves nothing behind on any branch (on the
fallback branch this is the local executor's cleanup). -/
theorem run_code_docker_clean (env : DockerEnv) (c l i : String) (t m : Nat) :
    remainingFiles (run_code_docker env c l i t m).2 = [] := by
  cases env with
  | unavailable msg lenv => exact run_code_locally_clean lenv c l i t m
  | available denv =>
    rcases denv with ⟨cf, iw, cont⟩
    unfold run_code_docker create_solution_file LANGUAGE_CONFIG
    by_cases hl : l = "python" <;>
      cases cf <;>
      cases iw <;>
      cases cont <;>
      simp_all [finallyUnlink_none, remaining_nil, remaining_create_unlink,
        clean_one, clean_one_two, clean_two]

/-- C9: on every exit path of both executors — success, error result and
internal exception — every file the attempt created has been removed by the
time the function returns. -/
theorem artifacts_always_removed (lenv : LocalEnv) (denv : DockerEnv)
    (c l i : String) (t m : Nat) :
    remainingFiles (run_code_locally lenv c l i t m).2 = [] ∧
    remainingFiles (run_code_docker denv c l i t m).2 = [] :=
  ⟨run_code_locally_clean lenv c l i t m, run_code_docker_clean denv c l i t m⟩

/-! ## Batch-runner lemmas -/

/-- The testcase index recorded in a `TestcaseResult` is the index the
testcase was executed under. -/
theorem execute_testcase_index (eenv : ExecEnv) (c l : String) (tc : TestcaseInput)
    (idx t m : Nat) (tr : TestcaseResult)
    (h : (execute_testcase eenv c l tc idx t m).1 = .ret tr) :
    tr.testcase_index = idx := by
  obtain ⟨er, her⟩ := runExecutor_isRet eenv c l tc.input t m
  have hret := execute_testcase_ret eenv c l tc idx t m er her
  rw [hret] at h
  injection h with h
  subst h
  rfl

/-- The loop of the router produces one result per testcase, in order: the
`i`-th result is exactly the outcome of executing the `i`-th testcase under
index `start + i`. -/
theorem runTestcases_spec (envs : Nat → DockerEnv) (c l : String) (t m : Nat) :
    ∀ (tcs : List TestcaseInput) (start : Nat) (acc : Option String)
      (rs : List TestcaseResult) (re : Option String),
      (runTestcases envs c l t m tcs start acc).1 = .ret (rs, re) →
      rs.length = tcs.length ∧
      ∀ i (hi : i < tcs.length) (hi' : i < rs.length),
        (execute_testcase (.docker (envs (start + i))) c l (tcs.get ⟨i, hi⟩)
            (start + i) t m).1 = .ret (rs.get ⟨i, hi'⟩) := by
  intro tcs
  induction tcs with
  | nil =>
    intro start acc rs re h
    simp only [runTestcases] at h
    injection h with h
    injection h with h1 h2
    subst h1
    exact ⟨rfl, fun i hi => absurd hi (Nat.not_lt_zero i)⟩
  | cons tc rest ih =>
    intro start acc rs re h
    simp only [runTestcases] at h
    rcases hx : execute_testcase (.docker (envs start)) c l tc start t m with ⟨po, evs⟩
    rw [hx] at h
    cases po with
    | exc msg => simp at h
    | ret r =>
      simp only at h
      rcases hrec : runTestcases envs c l t m rest (start + 1)
          (if errTruthy r.error && !errTruthy acc then r.error else acc) with ⟨po', evs'⟩
      rw [hrec] at h
      cases po' with
      | exc msg => simp at h
      | ret pr =>
        rcases pr with ⟨rs', re'⟩
        simp only at h
        injection h with h
        injection h with h1 h2
        subst h1
        subst h2
        obtain ⟨hlen, hget⟩ := ih (start + 1) _ rs' re' (by rw [hrec])
        refine ⟨by simpa using hlen, ?_⟩
        intro i hi hi'
        cases i with
        | zero =>
          simpa using congrArg Prod.fst hx
        | succ j =>
          have hj : j < rest.length := by simpa using hi
          have hj' : j < rs'.length := by simpa using hi'
          have := hget j hj hj'
          have hidx : start + (j + 1) = (start + 1) + j := by omega
          rw [hidx]
          simpa using this

/-- The response's result list, pointwise: one result per testcase, the
`i`-th being the outcome of executing the `i`-th testcase under index `i`
with the capped limits. -/
theorem execute_code_results (envs : Nat → DockerEnv)
    (request : ExecutionRequest) (settings : Settings) (resp : ExecutionResponse)
    (h : (execute_code envs request settings).1 = .ret resp) :
    resp.results.length = request.testcases.length ∧
    ∀ i (hi : i < request.testcases.length) (hi' : i < resp.results.length),
      (execute_testcase (.docker (envs i)) request.code request.language
          (request.testcases.get ⟨i, hi⟩) i
          (min request.timeout_seconds settings.code_timeout_seconds)
          (min request.memory_limit_mb settings.code_memory_limit_mb)).1 =
        .ret (resp.results.get ⟨i, hi'⟩) := by
  unfold execute_code at h
  simp only at h
  rcases hrun : runTestcases envs request.code request.language
      (min request.timeout_seconds settings.code_timeout_seconds)
      (min request.memory_limit_mb settings.code_memory_limit_mb)
      request.testcases 0 none with ⟨po, evs⟩
  rw [hrun] at h
  cases po with
  | exc msg => simp at h
  | ret pr =>
    rcases pr with ⟨results, runtime_error⟩
    simp only at h
    injection h with h
    subst h
    obtain ⟨hlen, hget⟩ := runTestcases_spec envs request.code request.language
      _ _ request.testcases 0 none results runtime_error (by rw [hrun])
    refine ⟨hlen, ?_⟩
    intro i hi hi'
    simpa using hget i hi hi'

/-- C4: the response carries exactly one result per testcase, in input
order: the `i`-th result records testcase index `i` and is the outcome of
executing the `i`-th testcase of the request. -/
theorem results_length_and_order (envs : Nat → DockerEnv)
    (request : ExecutionRequest) (settings : Settings) (resp : ExecutionResponse)
    (h : (execute_code envs request settings).1 = .ret resp) :
    resp.results.length = request.testcases.length ∧
    (∀ i (hi : i < resp.results.length),
      (resp.results.get ⟨i, hi⟩).testcase_index = i) ∧
    ∀ i (hi : i < request.testcases.length) (hi' : i < resp.results.length),
      (execute_testcase (.docker (envs i)) request.code request.language
          (request.testcases.get ⟨i, hi⟩) i
          (min request.timeout_seconds settings.code_timeout_seconds)
          (min request.memory_limit_mb settings.code_memory_limit_mb)).1 =
        .ret (resp.results.get ⟨i, hi'⟩) := by
  obtain ⟨hlen, hget⟩ := execute_code_results envs request settings resp h
  refine ⟨hlen, ?_, hget⟩
  intro i hi
  have hi2 : i < request.testcases.length := hlen ▸ hi
  exact execute_testcase_index _ _ _ _ _ _ _ _ (hget i hi2 hi)

theorem results_length_and_order_witness :
    ((execute_code envsOne reqOne {}).1 = .ret respOne) ∧
    (respOne.results.length = reqOne.testcases.length ∧
     (∀ i (hi : i < respOne.results.length),
       (respOne.results.get ⟨i, hi⟩).testcase_index = i) ∧
     ∀ i (hi : i < reqOne.testcases.length) (hi' : i < respOne.results.length),
       (execute_testcase (.docker (envsOne i)) reqOne.code reqOne.language
           (reqOne.testcases.get ⟨i, hi⟩) i
           (min reqOne.timeout_seconds ({} : Settings).code_timeout_seconds)
           (min reqOne.memory_limit_mb ({} : Settings).code_memory_limit_mb)).1 =
         .ret (respOne.results.get ⟨i, hi'⟩)) :=
  ⟨by decide, results_length_and_order envsOne reqOne {} respOne (by decide)⟩

/-- With a language id absent from the registry, both executors return the
unsupported-language error result (the containerized path directly, the
fallback path through the local executor) without touching the disk. -/
theorem run_code_docker_unsupported (denv : DockerEnv) (c l i : String) (t m : Nat)
    (hlang : LANGUAGE_CONFIG l = none) :
    run_code_docker denv c l i t m = (.ret (unsupportedResult l), []) := by
  cases denv with
  | unavailable msg lenv =>
    show run_code_locally lenv c l i t m = _
    unfold run_code_locally
    rw [hlang]
  | available dae =>
    unfold run_code_docker
    rw [hlang]

/-- C6 counterexample: a request whose language id `"cpp"` is not in the
registry is *not* rejected before execution — the endpoint runs both
testcases and returns a full response in which each testcase carries its
own `Unsupported language` error. -/
theorem unsupported_language_runs_all_testcases :
    (execute_code envsNoDocker reqCpp {}).1 = .ret respCpp := by decide

/-- C6 (amended): a request whose language id is not in the registry is not
rejected up front; every testcase still runs, and each produces its own
`TestcaseResult` carrying the `Unsupported language` error text. -/
theorem unsupported_language_per_testcase_errors (envs : Nat → DockerEnv)
    (request : ExecutionRequest) (settings : Settings) (resp : ExecutionResponse)
    (hlang : LANGUAGE_CONFIG request.language = none)
    (h : (execute_code envs request settings).1 = .ret resp) :
    resp.results.length = request.testcases.length ∧
    ∀ i (hi : i < resp.results.length),
      (resp.results.get ⟨i, hi⟩).error =
        some ("Unsupported language: " ++ request.language) := by
  obtain ⟨hlen, hget⟩ := execute_code_results envs request settings resp h
  refine ⟨hlen, ?_⟩
  intro i hi
  have hi2 : i < request.testcases.length := hlen ▸ hi
  have hx := hget i hi2 hi
  have her : (runExecutor (.docker (envs i)) request.code request.language
      (request.testcases.get ⟨i, hi2⟩).input
      (min request.timeout_seconds settings.code_timeout_seconds)
      (min request.memory_limit_mb settings.code_memory_limit_mb)).1 =
      .ret (unsupportedResult request.language) := by
    show (run_code_docker (envs i) _ _ _ _ _).1 = _
    rw [run_code_docker_unsupported _ _ _ _ _ _ hlang]
  rw [execute_testcase_ret _ _ _ _ _ _ _ _ her] at hx
  injection hx with hx
  rw [← hx]
  rfl

theorem unsupported_language_per_testcase_errors_witness :
    (LANGUAGE_CONFIG reqCpp.language = none) ∧
    ((execute_code envsNoDocker reqCpp {}).1 = .ret respCpp) ∧
    (respCpp.results.length = reqCpp.testcases.length ∧
     ∀ i (hi : i < respCpp.results.length),
       (respCpp.results.get ⟨i, hi⟩).error =
         some ("Unsupported language: " ++ reqCpp.language)) :=
  ⟨by decide, by decide,
   unsupported_language_per_testcase_errors envsNoDocker reqCpp {} respCpp
     (by decide) (by decide)⟩

/-- The first-error accumulator of the loop: starting from `acc`, the final
submission-level error is `acc` if it is already truthy, otherwise the
error of the first result whose error is truthy (non-null and non-empty),
otherwise `acc`. -/
theorem runTestcases_error (envs : Nat → DockerEnv) (c l : String) (t m : Nat) :
    ∀ (tcs : List TestcaseInput) (start : Nat) (acc : Option String)
      (rs : List TestcaseResult) (re : Option String),
      (runTestcases envs c l t m tcs start acc).1 = .ret (rs, re) →
      re = if errTruthy acc then acc
           else match rs.find? (fun r => errTruthy r.error) with
                | some r => r.error
                | none => acc := by
  intro tcs
  induction tcs with
  | nil =>
    intro start acc rs re h
    simp only [runTestcases] at h
    injection h with h
    injection h with h1 h2
    subst h1
    subst h2
    cases hc : errTruthy acc <;> simp [hc]
  | cons tc rest ih =>
    intro start acc rs re h
    simp only [runTestcases] at h
    rcases hx : execute_testcase (.docker (envs start)) c l tc start t m with ⟨po, evs⟩
    rw [hx] at h
    cases po with
    | exc msg => simp at h
    | ret r =>
      simp only at h
      rcases hrec : runTestcases envs c l t m rest (start + 1)
          (if errTruthy r.error && !errTruthy acc then r.error else acc) with ⟨po', evs'⟩
      rw [hrec] at h
      cases po' with
      | exc msg => simp at h
      | ret pr =>
        rcases pr with ⟨rs', re'⟩
        simp only at h
        injection h with h
        injection h with h1 h2
        subst h1
        subst h2
        have hrec' := ih (start + 1) _ rs' re' (by rw [hrec])
        cases hacc : errTruthy acc with
        | true =>
          simp [hacc] at hrec' ⊢
          exact hrec'
        | false =>
          cases hr : errTruthy r.error with
          | true =>
            simp [hacc, hr, List.find?] at hrec' ⊢
            exact hrec'
          | false =>
            simp [hacc, hr, List.find?] at hrec' ⊢
            exact hrec'

/-- C7 counterexample: the first testcase exits non-zero with
whitespace-only stderr, so its per-case error is the *empty string* — a
non-null error.  The claim demands the submission-level error be that first
non-null error, but the router's truthiness test skips it and captures the
second testcase's `"boom"` instead. -/
theorem runtime_error_skips_empty_string_error :
    (execute_code envsC7 reqC7 {}).1 = .ret respC7 ∧
    respC7.results.map (fun r => r.error) = [some "", some "boom"] ∧
    respC7.runtime_error = some "boom" ∧
    (some "boom" : Option String) ≠ some "" := by decide

/-- C7 (amended): the submission-level `runtime_error` equals the error of
the first result in testcase order whose error is non-null *and non-empty*
(Python truthiness); it is null when no testcase produced such an error. -/
theorem runtime_error_is_first_truthy_error (envs : Nat → DockerEnv)
    (request : ExecutionRequest) (settings : Settings) (resp : ExecutionResponse)
    (h : (execute_code envs request settings).1 = .ret resp) :
    resp.runtime_error =
      match resp.results.find? (fun r => errTruthy r.error) with
      | some r => r.error
      | none => none := by
  unfold execute_code at h
  simp only at h
  rcases hrun : runTestcases envs request.code request.language
      (min request.timeout_seconds settings.code_timeout_seconds)
      (min request.memory_limit_mb settings.code_memory_limit_mb)
      request.testcases 0 none with ⟨po, evs⟩
  rw [hrun] at h
  cases po with
  | exc msg => simp at h
  | ret pr =>
    rcases pr with ⟨results, runtime_error⟩
    simp only at h
    injection h with h
    subst h
    have := runTestcases_error envs request.code request.language
      _ _ request.testcases 0 none results runtime_error (by rw [hrun])
    simpa using this

theorem runtime_error_is_first_truthy_error_witness :
    ((execute_code envsC7 reqC7 {}).1 = .ret respC7) ∧
    (respC7.runtime_error =
      match respC7.results.find? (fun r => errTruthy r.error) with
      | some r => r.error
      | none => none) :=
  ⟨by decide, runtime_error_is_first_truthy_error envsC7 reqC7 {} respC7 (by decide)⟩

/-- Counting complement: the failed count is the length of the
non-passing sublist. -/
theorem length_sub_countP (rs : List TestcaseResult) :
    rs.length - rs.countP (fun r => r.passed) =
      (rs.filter (fun r => !r.passed)).length := by
  induction rs with
  | nil => rfl
  | cons x xs ih =>
    have hle := List.countP_le_length (p := fun r => r.passed) (l := xs)
    by_cases hx : x.passed <;>
      simp [List.countP_cons, List.filter_cons, hx] <;> omega

/-- C8 counterexample: three runs with durations 1, 1 and 2 ms have exact
mean 4/3 ms, but the summary reports `round(4/3, 2) = 1.33`, so
`avg_execution_time_ms` is not the arithmetic mean as claimed. -/
theorem avg_time_is_rounded_not_exact_mean :
    (execute_code envsC8 reqC8 {}).1 = .ret respC8 ∧
    qDivNat (qSum (respC8.results.map (fun r => r.execution_time_ms)))
      respC8.results.length = mkRat 4 3 ∧
    respC8.summary.avg_execution_time_ms = mkRat 133 100 ∧
    mkRat 133 100 ≠ mkRat 4 3 := by decide

/-- C8 (amended): the summary's counts are exact, while the mean duration
and the maximum memory are reported after Python's `round(·, 2)` — the mean
rounded (half-to-even) to two decimal places rather than the exact mean. -/
theorem summary_aggregates (envs : Nat → DockerEnv)
    (request : ExecutionRequest) (settings : Settings) (resp : ExecutionResponse)
    (h : (execute_code envs request settings).1 = .ret resp) :
    resp.summary.total = resp.results.length ∧
    resp.summary.passed = (resp.results.filter (fun r => r.passed)).length ∧
    resp.summary.failed = (resp.results.filter (fun r => !r.passed)).length ∧
    resp.summary.avg_execution_time_ms =
      round2 (if resp.results.length ≠ 0 then
          qDivNat (qSum (resp.results.map (fun r => r.execution_time_ms)))
            resp.results.length
        else 0) ∧
    resp.summary.max_memory_mb =
      round2 (pyMaxD 0 (resp.results.map (fun r => r.memory_used_mb))) := by
  unfold execute_code at h
  simp only at h
  rcases hrun : runTestcases envs request.code request.language
      (min request.timeout_seconds settings.code_timeout_seconds)
      (min request.memory_limit_mb settings.code_memory_limit_mb)
      request.testcases 0 none with ⟨po, evs⟩
  rw [hrun] at h
  cases po with
  | exc msg => simp at h
  | ret pr =>
    rcases pr with ⟨results, runtime_error⟩
    simp only at h
    injection h with h
    subst h
    refine ⟨rfl, ?_, ?_, rfl, rfl⟩
    · simpa using (List.countP_eq_length_filter (fun r => r.passed) results)
    · simpa using length_sub_countP results

theorem summary_aggregates_witness :
    ((execute_code envsC8 reqC8 {}).1 = .ret respC8) ∧
    (respC8.summary.total = respC8.results.length ∧
     respC8.summary.passed = (respC8.results.filter (fun r => r.passed)).length ∧
     respC8.summary.failed = (respC8.results.filter (fun r => !r.passed)).length ∧
     respC8.summary.avg_execution_time_ms =
       round2 (if respC8.results.length ≠ 0 then
           qDivNat (qSum (respC8.results.map (fun r => r.execution_time_ms)))
             respC8.results.length
         else 0) ∧
     respC8.summary.max_memory_mb =
       round2 (pyMaxD 0 (respC8.results.map (fun r => r.memory_used_mb)))) :=
  ⟨by decide, summary_aggregates envsC8 reqC8 {} respC8 (by decide)⟩

end CodetestAI
